import Mathlib

/-!
Verification development for the `machines_monitoring` repository
(`machines_monitor/monitor.py`, `machines_monitor/dashboard.py`).

The Python source is shallowly embedded: each Python function that the
claims depend on becomes a Lean definition of the same name (where Lean
allows it); Python exceptions are modelled with `Except PyErr`; Python
`int` is `ℤ`; Python `float` is idealised as `ℚ`; `None`-or-value is
`Option`.  The per-host monitor loop and the dashboard refresh loop are
modelled as explicit step functions over their mutable state, with the
remote channel's behaviour (the lines `readline` yields before the
10-second window closes) passed in as a list of lines.
-/

namespace MachinesMonitor

/-- Python exceptions that the embedded code can raise. -/
inductive PyErr where
  | nameError (n : String)
  | attributeError (msg : String)
  | valueError
  | indexError
  | zeroDivisionError
  deriving Repr, DecidableEq

/-! ### Python primitive helpers

All string operations are implemented by structural recursion over
character lists so that concrete instances reduce inside the kernel. -/

/-- Python `s.strip()`: drop whitespace from both ends. -/
def pyStrip (s : String) : String :=
  String.mk
    (((s.toList.dropWhile Char.isWhitespace).reverse.dropWhile
      Char.isWhitespace).reverse)

/-- Substring occurrence over character lists. -/
def containsList (pat : List Char) : List Char → Bool
  | [] => List.isPrefixOf pat []
  | c :: rest => List.isPrefixOf pat (c :: rest) || containsList pat rest

/-- Python's `pat in s` membership test. -/
def containsSub (s pat : String) : Bool :=
  containsList pat.toList s.toList

/-- Python `s.startswith(pat)`. -/
def pyStartsWith (s pat : String) : Bool :=
  List.isPrefixOf pat.toList s.toList

/-- Worker for `pySplitSep`: split at each occurrence of the (nonempty)
separator, scanning left to right; the fuel bounds the scan and is
never exhausted when it starts at the input length. -/
def splitSepFuel (sep : List Char) : ℕ → List Char → List Char →
    List (List Char)
  | 0, acc, rest => [acc.reverse ++ rest]
  | _ + 1, acc, [] => [acc.reverse]
  | n + 1, acc, c :: rest =>
    if List.isPrefixOf sep (c :: rest) then
      acc.reverse :: splitSepFuel sep n [] (List.drop (sep.length - 1) rest)
    else splitSepFuel sep n (c :: acc) rest

/-- Python `s.split(sep)` for a nonempty separator. -/
def pySplitSep (s sep : String) : List String :=
  (splitSepFuel sep.toList s.toList.length [] s.toList).map String.mk

/-- Value of a digit list, `none` if empty or a non-digit occurs
(the failure domain of Python `int` on a trimmed string of digits). -/
def digitsVal (cs : List Char) : Option ℕ :=
  if cs = [] ∨ ¬ cs.all Char.isDigit then none
  else some (cs.foldl (fun a c => a * 10 + (c.toNat - 48)) 0)

/-- Embedding of Python `int(s)`: surrounding whitespace ignored,
optional sign, decimal digits; anything else raises `ValueError`
(here: `none`). -/
def pyInt? (s : String) : Option ℤ :=
  match (pyStrip s).toList with
  | '-' :: rest => (digitsVal rest).map (fun n => -(n : ℤ))
  | '+' :: rest => (digitsVal rest).map (fun n => (n : ℤ))
  | cs => (digitsVal cs).map (fun n => (n : ℤ))

/-- `10 ^ e` over ℚ for a signed exponent. -/
def qpow10 (e : ℤ) : ℚ :=
  if 0 ≤ e then (10 : ℚ) ^ e.toNat else 1 / (10 : ℚ) ^ (-e).toNat

/-- Mantissa-and-exponent assembly for `pyFloat?`. -/
def floatVal (sign : ℤ) (ip fp : List Char) (ex : ℤ) : ℚ :=
  (sign : ℚ) * (((digitsVal ip).getD 0 : ℚ)
      + ((digitsVal fp).getD 0 : ℚ) / (10 : ℚ) ^ fp.length) * qpow10 ex

/-- Exponent-part parser used by `pyFloat?`: accepts the empty rest or
`e`/`E` followed by an optionally signed digit run. -/
def parseExpPart (rest : List Char) : Option ℤ :=
  match rest with
  | [] => some 0
  | c :: r =>
    if c = 'e' ∨ c = 'E' then
      match r with
      | '-' :: ds => (digitsVal ds).map (fun n => -(n : ℤ))
      | '+' :: ds => (digitsVal ds).map (fun n => (n : ℤ))
      | ds => (digitsVal ds).map (fun n => (n : ℤ))
    else none

/-- Embedding of Python `float(s)` on finite decimal literals:
surrounding whitespace ignored, optional sign, digits with an optional
fraction part (at least one digit overall), optional exponent.  The
value is idealised as the exact rational. -/
def pyFloat? (s : String) : Option ℚ :=
  let t := (pyStrip s).toList
  let (sign, t') : ℤ × List Char :=
    match t with
    | '-' :: r => (-1, r)
    | '+' :: r => (1, r)
    | _ => (1, t)
  let ip := t'.takeWhile Char.isDigit
  let r1 := t'.dropWhile Char.isDigit
  match r1 with
  | '.' :: r2 =>
    let fp := r2.takeWhile Char.isDigit
    let r3 := r2.dropWhile Char.isDigit
    if ip = [] ∧ fp = [] then none
    else (parseExpPart r3).map (floatVal sign ip fp)
  | _ =>
    if ip = [] then none
    else (parseExpPart r1).map (floatVal sign ip [] ·)

/-- Python `round` on a rational: nearest integer, ties to even. -/
def pyRound (q : ℚ) : ℤ :=
  let f := ⌊q⌋
  let r := q - (f : ℚ)
  if r < 1/2 then f
  else if r > 1/2 then f + 1
  else if Even f then f else f + 1

/-- Python `int(x)` on a float/rational: truncation toward zero. -/
def pyTrunc (q : ℚ) : ℤ :=
  if 0 ≤ q then ⌊q⌋ else ⌈q⌉

/-- Worker for `pySplitMaxsplit`, structural on the split budget. -/
def splitWSMax : ℕ → List Char → List (List Char)
  | k, cs =>
    let cs' := cs.dropWhile Char.isWhitespace
    if cs' = [] then []
    else
      match k with
      | 0 => [cs']
      | k + 1 =>
        let tok := cs'.takeWhile (fun c => !c.isWhitespace)
        let rest := cs'.dropWhile (fun c => !c.isWhitespace)
        tok :: splitWSMax k rest

/-- Python `s.split(maxsplit=k)`: at most `k` whitespace splits, the
remainder (leading whitespace consumed) kept whole as the last piece. -/
def pySplitMaxsplit (s : String) (k : ℕ) : List String :=
  (splitWSMax k s.toList).map (fun cs => String.mk cs)

/-- Python `s.split()` (no separator): split on whitespace runs,
discarding empty pieces; a budget of the input length is never
exhausted. -/
def pySplitWS (s : String) : List String :=
  (splitWSMax s.toList.length s.toList).map (fun cs => String.mk cs)

/-- Python `s.ljust(w, fill)`. -/
def pyLjust (s : String) (w : ℤ) (fill : Char) : String :=
  s ++ String.mk (List.replicate (w - s.length).toNat fill)

/-- Python `"c" * n` for a possibly negative count. -/
def pyRepeat (c : Char) (n : ℤ) : String :=
  String.mk (List.replicate n.toNat c)

/-! ### Data model -/

/-- One parsed device record (`parse_gpu` / `parse_xpu` dict).
Python ints are `ℤ`; `power` is a float in the GPU path, idealised `ℚ`. -/
structure Device where
  id : ℤ
  used : ℤ
  total : ℤ
  util : ℤ
  temp : ℤ
  power : ℚ
  type : String
  deriving Repr, DecidableEq

/-- The `get_mem_info` result dict. -/
structure MemRec where
  percent : ℚ
  used_gb : ℤ
  total_gb : ℤ
  deriving Repr, DecidableEq

/-- One `data` dict published by `MachineMonitor.monitor`. -/
structure Snapshot where
  cpu : ℚ
  mem : MemRec
  devices : List Device
  processes : List (List String)
  timestamp : ℚ
  deriving Repr, DecidableEq

/-- The session state mutated by `MachineMonitor`: its `connected` flag. -/
structure SessState where
  connected : Bool
  deriving Repr, DecidableEq

/-! ### RemoteSession protocol (`monitor.py`)

`get_remote_info`'s read phase consumes lines from `self.ssh.stdout`.
We model the channel as the list of raw lines `readline` yields inside
the 10-second window; exhausting the list is the timeout (no sentinel
seen before the clock ran out). -/

/-- The completion-sentinel prefix `get_remote_info` greps for. -/
def sentinelTag : String := "CMD_FINISHED_"

/-- Exit-code extraction from a sentinel line
(`line.split("_")[-1].strip()`, `int(...)`, `ValueError ↦ -1`). -/
def parseExitCode (line : String) : ℤ :=
  let part := pyStrip ((pySplitSep line "_").getLastD "")
  match pyInt? part with
  | some c => c
  | none => -1

/-- The read loop of `get_remote_info` (monitor.py lines 90–106): skip
empty reads, stop at the first line containing the sentinel and take its
exit code, otherwise accumulate `line.strip()`.  Exit code defaults to
`-1` when the window closes with no sentinel. -/
def readOutput (acc : List String) : List String → List String × ℤ
  | [] => (acc.reverse, -1)
  | l :: rest =>
    if l = "" then readOutput acc rest
    else if containsSub l sentinelTag then (acc.reverse, parseExitCode l)
    else readOutput (pyStrip l :: acc) rest

/-- Embedding of `MachineMonitor.ssh_connect` (monitor.py lines 19–57).
The body evaluates `os.devnull` at line 39, but `monitor.py` never
imports `os`, so every call raises `NameError: name 'os' is not defined`
before any process is spawned. -/
def ssh_connect (_st : SessState) : Except PyErr (Bool × SessState) :=
  Except.error (PyErr.nameError "os")

/-- The string a command execution returns: `""` unless the sentinel's
exit code is exactly 0, else the stripped output lines joined by
newlines (monitor.py lines 108–113). -/
def remoteResult (chan : List String) : String :=
  if (readOutput [] chan).2 ≠ 0 then ""
  else String.intercalate "\n" (readOutput [] chan).1

/-- The `try` block of `get_remote_info` (monitor.py lines 83–113):
send the command, read lines until the sentinel or the end of the
10-second window, and return per `remoteResult`.  Both returns leave
`self.connected` untouched; nothing in the modelled read phase raises. -/
def get_remote_info_try (st : SessState) (chan : List String) :
    Except PyErr (String × SessState) :=
  Except.ok (remoteResult chan, st)

/-- Embedding of the whole of `get_remote_info`, including the guard at
line 80: a disconnected session first runs `ssh_connect` (whose
exception propagates, since the call sits outside the `try` block), and
only a `False` return short-circuits to `""`. -/
def get_remote_info (st : SessState) (chan : List String) :
    Except PyErr (String × SessState) :=
  if !st.connected then
    match ssh_connect st with
    | Except.error e => Except.error e
    | Except.ok (ok, st') =>
      if !ok then Except.ok ("", st')
      else get_remote_info_try st' chan
  else get_remote_info_try st chan

/-! ### MetricCollector parsers (`monitor.py`)

Each `get_*_info` method runs `get_remote_info` and parses its string
result; the parsers below take that string.  Parse failures are caught
locally and mapped to the documented zero/empty defaults. -/

/-- Parse step of `get_cpu_info` (lines 120–127):
`float(output.strip())`, `ValueError ↦ 0.0`. -/
def get_cpu_info_parse (output : String) : ℚ :=
  match pyFloat? (pyStrip output) with
  | some q => q
  | none => 0

/-- Parse step of `get_mem_info` (lines 129–141):
`total, used = map(int, output.strip().split())`, then percent and
rounded GiB; any `ValueError`/`ZeroDivisionError` yields the zero dict. -/
def get_mem_info_parse (output : String) : MemRec :=
  match pySplitWS (pyStrip output) with
  | [t, u] =>
    match pyInt? t, pyInt? u with
    | some total, some used =>
      if total = 0 then ⟨0, 0, 0⟩
      else ⟨(used : ℚ) / (total : ℚ) * 100,
            pyRound ((used : ℚ) / (1024 : ℚ) ^ 3),
            pyRound ((total : ℚ) / (1024 : ℚ) ^ 3)⟩
    | _, _ => ⟨0, 0, 0⟩
  | _ => ⟨0, 0, 0⟩

/-- One line of `parse_gpu` (lines 160–176): skip empty lines and lines
without `", "`; unpack exactly six `", "`-separated fields; parse five
ints and a float; any failure drops the line. -/
def parseGpuLine (line : String) : Option Device :=
  if line = "" ∨ containsSub line ", " = false then none
  else
    match pySplitSep line ", " with
    | [i, u, t, ut, tp, pw] =>
      match pyInt? i, pyInt? u, pyInt? t, pyInt? ut, pyInt? tp,
            pyFloat? pw with
      | some a, some b, some c, some d, some e, some f =>
        some ⟨a, b, c, d, e, f, "GPU"⟩
      | _, _, _, _, _, _ => none
    | _ => none

/-- `MachineMonitor.parse_gpu` (lines 158–177): split the output on
newlines and keep each line's record when it parses, in order. -/
def parse_gpu (output : String) : List Device :=
  (pySplitSep output "\n").filterMap parseGpuLine

/-- One line of `parse_xpu` (lines 182–197): whitespace-split, require
at least 32 fields, parse the six fixed offsets as ints; a failure
drops the line.  XPU power is an int, coerced into the shared record. -/
def parseXpuLine (line : String) : Option Device :=
  let parts := pySplitWS line
  if parts.length < 32 then none
  else
    match pyInt? (parts.getD 2 ""), pyInt? (parts.getD 17 ""),
          pyInt? (parts.getD 18 ""), pyInt? (parts.getD 19 ""),
          pyInt? (parts.getD 4 ""), pyInt? (parts.getD 8 "") with
    | some i, some u, some t, some ut, some tp, some pw =>
      some ⟨i, u, t, ut, tp, (pw : ℚ), "XPU"⟩
    | _, _, _, _, _, _ => none

/-- `MachineMonitor.parse_xpu` (lines 179–198). -/
def parse_xpu (output : String) : List Device :=
  (pySplitSep (pyStrip output) "\n").filterMap parseXpuLine

/-- Parse step of `get_processes` (lines 200–207): keep non-blank lines
not starting with `PID`, split each with `maxsplit=4`, return at most 5. -/
def get_processes_parse (output : String) : List (List String) :=
  (((pySplitSep output "\n").filter
      (fun l => pyStrip l ≠ "" && !(pyStartsWith l "PID"))).map
    (fun l => pySplitMaxsplit l 4)).take 5

/-! ### One collection cycle and the monitor loop (`monitor.py` 209–227)

The body of the `while True` loop builds the `data` dict from the four
getters.  Each getter routes through `get_remote_info`; we pass the
channel lines each command's read window yields. -/

/-- One poll cycle's remote inputs: the channel lines observed during
each of the four commands (CPU, memory, devices, processes). -/
structure CycleChans where
  cpuChan : List String
  memChan : List String
  devChan : List String
  procChan : List String

/-- One iteration of the `monitor` loop body (lines 216–222): run the
four getters through `get_remote_info`, threading the session state, and
assemble the `data` dict with the cycle's timestamp.  Any exception
(e.g. the `NameError` from a reconnect attempt) propagates to the
`except` clause of the loop. -/
def collectCycle (st : SessState) (ch : CycleChans) (isGPU : Bool)
    (now : ℚ) : Except PyErr (Snapshot × SessState) :=
  match get_remote_info st ch.cpuChan with
  | Except.error e => Except.error e
  | Except.ok (cpuOut, st1) =>
    match get_remote_info st1 ch.memChan with
    | Except.error e => Except.error e
    | Except.ok (memOut, st2) =>
      match get_remote_info st2 ch.devChan with
      | Except.error e => Except.error e
      | Except.ok (devOut, st3) =>
        match get_remote_info st3 ch.procChan with
        | Except.error e => Except.error e
        | Except.ok (procOut, st4) =>
          Except.ok
            ({ cpu := get_cpu_info_parse cpuOut
               mem := get_mem_info_parse memOut
               devices := if isGPU then parse_gpu devOut
                          else parse_xpu devOut
               processes := get_processes_parse procOut
               timestamp := now }, st4)

/-- An event published to the shared queue: `(host, data-or-None)`. -/
abbrev Event := String × Option Snapshot

/-- The `while True` loop of `MachineMonitor.monitor` (lines 214–227),
entered once a first connection has succeeded, run over a finite list of
cycle outcomes (each cycle's `data`-building either returns a snapshot
or raises).  An `Except.ok` cycle enqueues `(host, data)` and the loop
continues; a raising cycle hits the `except` clause, which enqueues
`(host, None)` and `break`s.  Returns the published events in order and
whether the loop is still polling after consuming the listed cycles. -/
def monitor_loop (host : String) (acc : List Event) :
    List (Except PyErr Snapshot) → List Event × Bool
  | [] => (acc.reverse, true)
  | Except.ok s :: rest => monitor_loop host ((host, some s) :: acc) rest
  | Except.error _ :: _ => (((host, none) :: acc).reverse, false)

/-- The whole of `MachineMonitor.monitor` (lines 209–227): first
`ssh_connect` (line 210) — an exception there propagates out of the
thread body with nothing enqueued; a `False` return enqueues
`(host, None)` and returns; a `True` return enters the loop.  The
second component records how the thread body ended. -/
def monitor_run (st : SessState) (host : String)
    (cycles : List (Except PyErr Snapshot)) :
    List Event × Except PyErr Bool :=
  match ssh_connect st with
  | Except.error e => ([], Except.error e)
  | Except.ok (ok, _st') =>
    if !ok then ([(host, none)], Except.ok false)
    else
      let (evs, polling) := monitor_loop host [] cycles
      (evs, Except.ok polling)

/-! ### AggregateStore (`dashboard.py` run loop, lines 228–231)

`self.data[host]["latest"] = data` for each drained event: a last-write-
wins association from host to the latest published `data`-or-`None`. -/

/-- The store: host ↦ latest published value (itself an `Option`:
`none` means a `(host, None)` event was absorbed last). -/
def Store := List (String × Option Snapshot)

/-- Absorb one drained event (line 230): overwrite the host's entry. -/
def applyEvent (store : Store) (ev : Event) : Store :=
  (ev.1, ev.2) :: store.filter (fun p => p.1 != ev.1)

/-- Absorb a batch of drained events in queue order. -/
def applyEvents (store : Store) (evs : List Event) : Store :=
  evs.foldl applyEvent store

/-- Look up a host's entry: `some v` when present with latest value
`v`, `none` when the host has never published. -/
def storeLookup (store : Store) (host : String) :
    Option (Option Snapshot) :=
  match store.find? (fun p => p.1 == host) with
  | some p => some p.2
  | none => none

/-! ### Renderer (`dashboard.py`)

A terminal write is a positioned string; the screen is `maxY × maxX`.
Colour attributes are out of scope (external collaborator). -/

/-- One string actually written to the screen. -/
structure Write where
  y : ℤ
  x : ℤ
  text : String
  deriving Repr, DecidableEq

/-- `curses.window.addstr`: raises `curses.error` when the start
position lies outside the window, otherwise writes the string. -/
def curses_addstr (maxY maxX y x : ℤ) (text : String) :
    Except Unit Write :=
  if y < 0 ∨ x < 0 ∨ y ≥ maxY ∨ x ≥ maxX then Except.error ()
  else Except.ok ⟨y, x, text⟩

/-- `Dashboard.safe_addstr` (dashboard.py lines 47–56): return early
when the target row/column is at or past the bottom/right edge, slice
the text to `max_x - x` characters, and swallow any `curses.error` from
`addstr` (e.g. a negative coordinate).  `none` means nothing written. -/
def safe_addstr (maxY maxX y x : ℤ) (text : String) : Option Write :=
  if y ≥ maxY ∨ x ≥ maxX then none
  else
    match curses_addstr maxY maxX y x (text.take (maxX - x).toNat) with
    | Except.error _ => none
    | Except.ok w => some w

/-- `%.prec f` rendering of a rational: fixed-point with `prec`
decimals (ties to even, as CPython's float formatting rounds). -/
def fmtFixed (q : ℚ) (prec : ℕ) : String :=
  let scaled := pyRound (q * (10 : ℚ) ^ prec)
  let a := scaled.natAbs
  let ipart := toString (a / 10 ^ prec)
  let frac := toString (a % 10 ^ prec)
  let fstr :=
    if prec = 0 then ""
    else "." ++ pyRepeat '0' ((prec : ℤ) - frac.length) ++ frac
  (if scaled < 0 then "-" else "") ++ ipart ++ fstr

/-- `{q:w.prec f}` rendering: `fmtFixed` right-aligned in `w` columns. -/
def fmtFixedW (q : ℚ) (w : ℕ) (prec : ℕ) : String :=
  let s := fmtFixed q prec
  pyRepeat ' ' ((w : ℤ) - s.length) ++ s

/-- `Dashboard.draw_util_bar` (lines 58–85): memory bar then
utilisation bar, each sized from the `width - 20` budget.  A device
with `total = 0` raises `ZeroDivisionError` at the `mem_percent`
computation, before any write. -/
def draw_util_bar (maxY maxX row col width : ℤ) (memUsed memTotal : ℤ)
    (utilValue : ℚ) : Except PyErr (List Write) :=
  if memTotal = 0 then Except.error PyErr.zeroDivisionError
  else
    let memStr := toString (memUsed.fdiv 1024) ++ "G/" ++
      toString (memTotal.fdiv 1024) ++ "G"
    let memPercent := (memUsed : ℚ) / (memTotal : ℚ) * 100
    let utilStr := fmtFixed utilValue 0 ++ "%"
    let memBarWidth := pyTrunc ((width - 20 : ℤ) * (6 / 10 : ℚ))
    let utilBarWidth := pyTrunc ((width - 20 : ℤ) * (4 / 10 : ℚ))
    let memFill := pyTrunc ((memBarWidth : ℚ) * memPercent / 100)
    let memBar := pyRepeat '█' memFill ++ pyRepeat ' ' (memBarWidth - memFill)
    let w1 := safe_addstr maxY maxX row col ("M[" ++ memBar ++ "] " ++ memStr)
    let utilFill := pyTrunc ((utilBarWidth : ℚ) * utilValue / 100)
    let utilBar := pyRepeat '█' utilFill ++ pyRepeat ' ' (utilBarWidth - utilFill)
    let w2 := safe_addstr maxY maxX row
      (col + memBarWidth + (memStr.length : ℤ) + 7)
      ("U[" ++ utilBar ++ "] " ++ utilStr)
    Except.ok (w1.toList ++ w2.toList)

/-- One entry of the process line comprehension
(`f"{p[4][:6]}:{float(p[2]):.1f}%"`, line 132): `p[4]` and `p[2]` can
raise `IndexError`, `float(p[2])` can raise `ValueError`. -/
def procEntry (p : List String) : Except PyErr String :=
  match p.get? 4 with
  | none => Except.error PyErr.indexError
  | some comm =>
    match p.get? 2 with
    | none => Except.error PyErr.indexError
    | some cpuS =>
      match pyFloat? cpuS with
      | none => Except.error PyErr.valueError
      | some q => Except.ok (comm.take 6 ++ ":" ++ fmtFixed q 1 ++ "%")

/-- `" ".join(...)` over the first three processes (line 132). -/
def procStr (ps : List (List String)) : Except PyErr String :=
  match ps.mapM procEntry with
  | Except.error e => Except.error e
  | Except.ok parts => Except.ok (String.intercalate " " parts)

/-- The device loop of `draw_machine_block` (lines 110–127), carrying
the running `height`; stops early when the next row would reach
`max_y - 2`. -/
def drawDevices (maxY maxX startRow startCol width : ℤ) (h : ℤ) :
    List Device → Except PyErr (ℤ × List Write)
  | [] => Except.ok (h, [])
  | dev :: rest =>
    if startRow + h ≥ maxY - 2 then Except.ok (h, [])
    else
      let devHeader :=
        pyLjust ("│ " ++ dev.type ++ toString dev.id ++ " ") 12 ' '
      let wa := (safe_addstr maxY maxX (startRow + h) startCol devHeader).toList
      match draw_util_bar maxY maxX (startRow + h) (startCol + 12)
          (width - 14) dev.used dev.total (dev.util : ℚ) with
      | Except.error e => Except.error e
      | Except.ok wb =>
        let wc := (safe_addstr maxY maxX (startRow + h)
          (startCol + width - 2) "│").toList
        match drawDevices maxY maxX startRow startCol width (h + 1) rest with
        | Except.error e => Except.error e
        | Except.ok (h', wrest) => Except.ok (h', wa ++ wb ++ wc ++ wrest)

/-- `Dashboard.draw_machine_block` (lines 87–138): `if not info:
return 0` guard, then title border, CPU/MEM line, at most 8 device
rows, an optional process line, and the bottom border.  Returns the
drawn height and the writes in order. -/
def draw_machine_block (maxY maxX startRow startCol width : ℤ)
    (host : String) (info : Option Snapshot) :
    Except PyErr (ℤ × List Write) :=
  match info with
  | none => Except.ok (0, [])
  | some i =>
    let title := pyLjust ("╭─ " ++ host ++ " ─") (width - 2) '─' ++ "╮"
    let w0 := (safe_addstr maxY maxX startRow startCol title).toList
    let cpuMemLine := "│ CPU:" ++ fmtFixedW i.cpu 5 1 ++ "% " ++
      "MEM:" ++ fmtFixedW (i.mem.used_gb : ℚ) 3 0 ++ "/" ++
      fmtFixedW (i.mem.total_gb : ℚ) 3 0 ++ "G "
    let w1 := (safe_addstr maxY maxX (startRow + 1) startCol
      (pyLjust cpuMemLine (width - 2) ' ' ++ "│")).toList
    match drawDevices maxY maxX startRow startCol width 2
        (i.devices.take 8) with
    | Except.error e => Except.error e
    | Except.ok (h2, wd) =>
      let procPart : Except PyErr (ℤ × List Write) :=
        if i.processes ≠ [] ∧ startRow + h2 < maxY - 2 then
          match procStr (i.processes.take 3) with
          | Except.error e => Except.error e
          | Except.ok s =>
            Except.ok (h2 + 1, (safe_addstr maxY maxX (startRow + h2)
              startCol ("│ " ++ pyLjust s (width - 4) ' ' ++ "│")).toList)
        else Except.ok (h2, [])
      match procPart with
      | Except.error e => Except.error e
      | Except.ok (h3, wp) =>
        let wbot := (safe_addstr maxY maxX (startRow + h3) startCol
          ("╰" ++ pyRepeat '─' (width - 2) ++ "╯")).toList
        Except.ok (h3 + 1, w0 ++ w1 ++ wd ++ wp ++ wbot)

/-! ### LayoutEngine (`dashboard.py` `update_display`, lines 154–161) -/

/-- The layout computation at the top of `update_display`: minimum
column width from the longest host name plus 6, floored at 60; column
count `max(1, (max_x - margin) // (min_col_width + margin))`; actual
column width.  Python's `max()` over an empty host list raises
`ValueError` (`none`). -/
def update_display_layout (hosts : List String) (maxX margin : ℤ) :
    Option (ℤ × ℤ × ℤ) :=
  match hosts with
  | [] => none
  | m :: ms =>
    let ipLength :=
      (ms.foldl (fun a h => max a (h.length : ℤ)) (m.length : ℤ)) + 6
    let minColWidth := max ipLength 60
    let cols := max 1 ((maxX - margin).fdiv (minColWidth + margin))
    let colWidth :=
      min minColWidth ((maxX - margin * (cols + 1)).fdiv cols)
    some (minColWidth, cols, colWidth)

/-! ### The per-host iteration of `update_display` (lines 169–207) -/

/-- The loop cursor mutated across hosts. -/
structure LoopSt where
  currentRow : ℤ
  currentCol : ℤ
  drawn : ℤ
  deriving Repr, DecidableEq

/-- Outcome of one iteration: continue to the next host (with the
writes this host produced) or leave the loop. -/
inductive StepRes where
  | cont (st : LoopSt) (ws : List Write)
  | brk (st : LoopSt)
  deriving Repr, DecidableEq

/-- One iteration of the host loop in `update_display` (lines 169–207):
the `drawn_machines` cap, the `if not info: continue` skip, block-height
calculation, column-wrap and page-overflow `break`s, the actual
`draw_machine_block` call, and cursor advancement with the
`drawn % cols == 0` row wrap. -/
def update_display_step (maxY maxX colWidth margin cols numMachines : ℤ)
    (st : LoopSt) (host : String) (info : Option Snapshot) :
    Except PyErr StepRes :=
  if st.drawn ≥ numMachines then Except.ok (StepRes.brk st)
  else
    match info with
    | none => Except.ok (StepRes.cont st [])
    | some i =>
      let deviceLines := min (i.devices.length : ℤ) 8
      let procLines : ℤ := if i.processes ≠ [] then 1 else 0
      let blockHeight := 3 + deviceLines + procLines
      let wrapped := st.currentCol + colWidth > maxX - margin
      let row1 := if wrapped then st.currentRow + blockHeight + margin
                  else st.currentRow
      let col1 := if wrapped then margin else st.currentCol
      if wrapped ∧ row1 + blockHeight > maxY - 2 then
        Except.ok (StepRes.brk ⟨row1, col1, st.drawn⟩)
      else if row1 + blockHeight > maxY - 2 then
        Except.ok (StepRes.brk ⟨row1, col1, st.drawn⟩)
      else
        match draw_machine_block maxY maxX row1 col1 colWidth host
            (some i) with
        | Except.error e => Except.error e
        | Except.ok (height, ws) =>
          let col2 := col1 + colWidth + margin
          let drawn2 := st.drawn + 1
          if drawn2 % cols = 0 then
            Except.ok (StepRes.cont ⟨row1 + height + margin, margin, drawn2⟩ ws)
          else
            Except.ok (StepRes.cont ⟨row1, col2, drawn2⟩ ws)

/-! ## Theorems -/

/-- An empty line contains no sentinel. -/
theorem containsSub_empty_sentinel : containsSub "" sentinelTag = false := by
  decide

/-- Read-loop exit code when the channel yields some non-sentinel lines
and then a sentinel line: the exit code is the sentinel line's. -/
theorem readOutput_exitCode (pre : List String) (acc : List String)
    (sline : String) (rest : List String)
    (hpre : ∀ l ∈ pre, containsSub l sentinelTag = false)
    (hsent : containsSub sline sentinelTag = true) :
    (readOutput acc (pre ++ sline :: rest)).2 = parseExitCode sline := by
  induction pre generalizing acc with
  | nil =>
    have hne : sline ≠ "" := by
      intro h
      rw [h, containsSub_empty_sentinel] at hsent
      exact Bool.false_ne_true hsent
    simp only [List.nil_append, readOutput, if_neg hne, hsent, if_pos]
  | cons l ls ih =>
    have hl : containsSub l sentinelTag = false := hpre l (by simp)
    have hls : ∀ x ∈ ls, containsSub x sentinelTag = false :=
      fun x hx => hpre x (by simp [hx])
    by_cases he : l = ""
    · simpa [readOutput, he] using ih acc hls
    · simp only [List.cons_append, readOutput, if_neg he, hl,
        Bool.false_eq_true, if_false]
      exact ih _ hls

/-- Read-loop exit code when no line in the window contains the
sentinel (the timeout case): the default `-1`. -/
theorem readOutput_timeout (chan : List String) (acc : List String)
    (hnone : ∀ l ∈ chan, containsSub l sentinelTag = false) :
    (readOutput acc chan).2 = -1 := by
  induction chan generalizing acc with
  | nil => simp [readOutput]
  | cons l ls ih =>
    have hl : containsSub l sentinelTag = false := hnone l (by simp)
    have hls : ∀ x ∈ ls, containsSub x sentinelTag = false :=
      fun x hx => hnone x (by simp [hx])
    by_cases he : l = ""
    · simpa [readOutput, he] using ih acc hls
    · simp only [readOutput, if_neg he, hl, Bool.false_eq_true, if_false]
      exact ih _ hls

/-- A connected session's `execute` never consults `ssh_connect`. -/
theorem get_remote_info_connected (st : SessState) (chan : List String)
    (hconn : st.connected = true) :
    get_remote_info st chan = Except.ok (remoteResult chan, st) := by
  simp [get_remote_info, hconn, get_remote_info_try]

/-- C1: for every remote command whose sentinel line carries a non-zero
exit code (a suffix that fails to parse as an integer counting as `-1`),
`execute` reports failure by returning the empty output string to the
collector, no matter how many output lines were read before the
sentinel, and leaves the session state unchanged. -/
theorem execute_nonzero_exit_no_output (st : SessState)
    (pre rest : List String) (sline : String)
    (hconn : st.connected = true)
    (hpre : ∀ l ∈ pre, containsSub l sentinelTag = false)
    (hsent : containsSub sline sentinelTag = true)
    (hcode : parseExitCode sline ≠ 0) :
    get_remote_info st (pre ++ sline :: rest) = Except.ok ("", st) := by
  rw [get_remote_info_connected st _ hconn]
  have h2 : (readOutput [] (pre ++ sline :: rest)).2 = parseExitCode sline :=
    readOutput_exitCode pre [] sline rest hpre hsent
  rw [remoteResult, if_pos (by rw [h2]; exact hcode)]

/-- Witness for C1: a command that printed one output line and exited
with code 2 surfaces no output at all. -/
theorem execute_nonzero_exit_no_output_witness :
    get_remote_info ⟨true⟩ ["some output line\n", "CMD_FINISHED_2\n"] =
      Except.ok ("", ⟨true⟩) :=
  execute_nonzero_exit_no_output ⟨true⟩ ["some output line\n"] []
    "CMD_FINISHED_2\n" rfl
    (by intro l hl; simp at hl; rw [hl]; decide)
    (by decide) (by decide)

/-- C2 counterexample: a connected session whose `execute` sees no
sentinel inside the 10-second window (modelled as the window closing
with no further lines) returns `""` but leaves `connected = true`, so
the session is *not* marked `Disconnected`; the very next `execute`
therefore sends its command directly and succeeds — had it first
attempted a reconnect, the result would have been the `NameError` that
`ssh_connect` always raises. -/
theorem execute_timeout_cex :
    get_remote_info ⟨true⟩ [] = Except.ok ("", ⟨true⟩) ∧
    get_remote_info ⟨true⟩ ["ok\n", "CMD_FINISHED_0\n"] =
      Except.ok ("ok", ⟨true⟩) ∧
    (SessState.mk true).connected ≠ false := by
  refine ⟨rfl, rfl, by decide⟩

/-- C2 amended: if an `execute` call observes no sentinel line within
the 10-second timeout, it reports failure with empty output but leaves
the session marked connected; consequently the session's next `execute`
call sends its command directly, without attempting a reconnect (its
result is exactly the `try`-block's, `ssh_connect` is never consulted). -/
theorem execute_timeout_amended (st : SessState) (chan : List String)
    (hconn : st.connected = true)
    (hnosent : ∀ l ∈ chan, containsSub l sentinelTag = false) :
    get_remote_info st chan = Except.ok ("", st) ∧
    ∀ chan2, get_remote_info st chan2 = get_remote_info_try st chan2 := by
  constructor
  · rw [get_remote_info_connected st _ hconn]
    have h2 : (readOutput [] chan).2 = -1 := readOutput_timeout chan [] hnosent
    rw [remoteResult, if_pos (by rw [h2]; decide)]
  · intro chan2
    simp [get_remote_info, hconn]

/-- Witness for C2 amended: a window that yielded one partial output
line and then closed. -/
theorem execute_timeout_amended_witness :
    get_remote_info ⟨true⟩ ["partial output\n"] = Except.ok ("", ⟨true⟩) ∧
    ∀ chan2, get_remote_info ⟨true⟩ chan2 =
      get_remote_info_try ⟨true⟩ chan2 :=
  execute_timeout_amended ⟨true⟩ ["partial output\n"] rfl
    (by intro l hl; simp at hl; rw [hl]; decide)

/-- A concrete healthy snapshot used by counterexamples below. -/
def sampleSnap : Snapshot :=
  { cpu := 137/10
    mem := { percent := 50, used_gb := 32, total_gb := 64 }
    devices := [⟨0, 1024, 8192, 50, 60, 241/2, "GPU"⟩]
    processes := [["123", "root", "10.5", "1.0", "python"]]
    timestamp := 1000 }

/-- Accumulator form of the `monitor` loop on a successful prefix. -/
theorem monitor_loop_ok_prefix (host : String) (goods : List Snapshot)
    (e : PyErr) (rest : List (Except PyErr Snapshot)) :
    ∀ acc, monitor_loop host acc
        (goods.map Except.ok ++ Except.error e :: rest) =
      (acc.reverse ++ goods.map (fun s => (host, some s)) ++ [(host, none)],
       false) := by
  induction goods with
  | nil => intro acc; simp [monitor_loop]
  | cons s ss ih =>
    intro acc
    show monitor_loop host ((host, some s) :: acc)
        (ss.map Except.ok ++ Except.error e :: rest) = _
    rw [ih]
    simp

/-- C3 counterexample: a host with one prior successful poll whose
second cycle raises publishes `(host, None)` for that cycle, but the
loop then `break`s — the returned flag says polling has stopped, where
the claim requires it to continue on subsequent intervals. -/
theorem monitor_midstream_cex :
    monitor_loop "10.0.0.1" []
        [Except.ok sampleSnap, Except.error PyErr.valueError] =
      ([("10.0.0.1", some sampleSnap), ("10.0.0.1", none)], false) ∧
    (monitor_loop "10.0.0.1" []
        [Except.ok sampleSnap, Except.error PyErr.valueError]).2 ≠ true := by
  exact ⟨rfl, by decide⟩

/-- C3 amended: for every host, after any number of successful poll
cycles, a cycle that raises publishes exactly one absent (`None`) event
for that cycle and then permanently stops that host's polling: the loop
breaks, and any later cycle outcomes are never published. -/
theorem monitor_midstream_amended (host : String) (goods : List Snapshot)
    (e : PyErr) (rest : List (Except PyErr Snapshot)) :
    monitor_loop host [] (goods.map Except.ok ++ Except.error e :: rest) =
      (goods.map (fun s => (host, some s)) ++ [(host, none)], false) := by
  simpa using monitor_loop_ok_prefix host goods e rest []

/-- C4: the claim describes the intended first-connect-failure path
(`monitor` lines 210–212: publish one `(host, None)` and return), but
the code cannot reach it: `ssh_connect` dereferences `os.devnull` at
monitor.py line 39 while `monitor.py` never imports `os`, so the very
first poll raises `NameError`, the exception propagates out of
`monitor`, and *no* event is ever published for the host. -/
theorem monitor_first_connect_failure_bug :
    monitor_run ⟨false⟩ "10.0.0.1" [] =
      ([], Except.error (PyErr.nameError "os")) ∧
    (monitor_run ⟨false⟩ "10.0.0.1" []).1 ≠ [("10.0.0.1", none)] := by
  exact ⟨rfl, by simp [monitor_run, ssh_connect]⟩

/-- A split that produced at least two pieces found the separator. -/
theorem splitSepFuel_contains (sep : List Char) :
    ∀ (fuel : ℕ) (acc cs : List Char),
      2 ≤ (splitSepFuel sep fuel acc cs).length →
      containsList sep cs = true := by
  intro fuel
  induction fuel with
  | zero => intro acc cs h; simp [splitSepFuel] at h
  | succ n ih =>
    intro acc cs h
    match cs with
    | [] => simp [splitSepFuel] at h
    | c :: rest =>
      by_cases hp : List.isPrefixOf sep (c :: rest)
      · simp [containsList, hp]
      · rw [splitSepFuel, if_neg hp] at h
        simp [containsList, hp, ih _ _ h]

/-- Python splits an empty string into one empty piece. -/
theorem pySplitSep_empty (sep : String) : pySplitSep "" sep = [""] := by
  simp [pySplitSep, splitSepFuel]

/-- C5: every well-formed GPU CSV line — one whose `", "`-split yields
exactly six fields, each parsing as the required numeric type — is
mapped by the parser to the record with exactly the typed fields
`{id, used, total, util, temp, power, type := "GPU"}`; and every
malformed line is dropped without affecting the records produced for
the other lines (the parser is total, so nothing raises). -/
theorem parse_gpu_correct :
    (∀ line i u t ut tp pw a b c d e f,
       pySplitSep line ", " = [i, u, t, ut, tp, pw] →
       pyInt? i = some a → pyInt? u = some b → pyInt? t = some c →
       pyInt? ut = some d → pyInt? tp = some e → pyFloat? pw = some f →
       parseGpuLine line = some ⟨a, b, c, d, e, f, "GPU"⟩)
    ∧ (∀ output pre bad post,
       pySplitSep output "\n" = pre ++ bad :: post →
       parseGpuLine bad = none →
       parse_gpu output =
         pre.filterMap parseGpuLine ++ post.filterMap parseGpuLine) := by
  constructor
  · intro line i u t ut tp pw a b c d e f hsplit ha hb hc hd he hf
    have hne : line ≠ "" := by
      intro h
      rw [h, pySplitSep_empty] at hsplit
      simp at hsplit
    have hcont : containsSub line ", " = true := by
      have : 2 ≤ (pySplitSep line ", ").length := by rw [hsplit]; simp
      have h2 : 2 ≤ (splitSepFuel (", ".toList) line.toList.length []
          line.toList).length := by
        simpa [pySplitSep] using this
      exact splitSepFuel_contains _ _ _ _ h2
    rw [parseGpuLine, if_neg (by simp [hne, hcont]), hsplit]
    simp [ha, hb, hc, hd, he, hf]
  · intro output pre bad post hsplit hbad
    rw [parse_gpu, hsplit, List.filterMap_append]
    simp [hbad]

set_option maxRecDepth 4000

/-- Witness for C5: the spec's example line parses to the example
record, and a malformed middle line is dropped without affecting the
valid line before it. -/
theorem parse_gpu_correct_witness :
    parseGpuLine "0, 1024, 8192, 50, 60, 120.5" =
      some ⟨0, 1024, 8192, 50, 60, (241 : ℚ)/2, "GPU"⟩ ∧
    parse_gpu "0, 1024, 8192, 50, 60, 120.5\nnot a device" =
      ["0, 1024, 8192, 50, 60, 120.5"].filterMap parseGpuLine ++
        ([] : List String).filterMap parseGpuLine :=
  ⟨parse_gpu_correct.1 "0, 1024, 8192, 50, 60, 120.5"
      "0" "1024" "8192" "50" "60" "120.5" 0 1024 8192 50 60 ((241 : ℚ)/2)
      (by decide) (by decide) (by decide) (by decide) (by decide)
      (by decide)
      (by show some (floatVal 1 ['1','2','0'] ['5'] 0) =
            some ((241 : ℚ)/2)
          have h1 : digitsVal ['1', '2', '0'] = some 120 := by decide
          have h2 : digitsVal ['5'] = some 5 := by decide
          unfold floatVal qpow10
          rw [h1, h2]
          norm_num),
   parse_gpu_correct.2 "0, 1024, 8192, 50, 60, 120.5\nnot a device"
      ["0, 1024, 8192, 50, 60, 120.5"] "not a device" []
      (by decide) (by decide)⟩

/-- A connected session's collection cycle: all four commands run, the
session state is unchanged, and the snapshot is a pure function of the
four channel contents plus the timestamp. -/
theorem collectCycle_connected (st : SessState) (ch : CycleChans)
    (isGPU : Bool) (t : ℚ) (hconn : st.connected = true) :
    collectCycle st ch isGPU t = Except.ok
      ({ cpu := get_cpu_info_parse (remoteResult ch.cpuChan)
         mem := get_mem_info_parse (remoteResult ch.memChan)
         devices := if isGPU then parse_gpu (remoteResult ch.devChan)
                    else parse_xpu (remoteResult ch.devChan)
         processes := get_processes_parse (remoteResult ch.procChan)
         timestamp := t }, st) := by
  simp [collectCycle, get_remote_info_connected _ _ hconn]

/-- C6: running a collection cycle twice against identical, unchanged
remote command outputs yields snapshots equal in every field (`cpu`,
`mem`, `devices`, `processes`) except `timestamp`, which carries each
cycle's own clock reading. -/
theorem collect_idempotent (st : SessState) (ch : CycleChans)
    (isGPU : Bool) (t1 t2 : ℚ) (hconn : st.connected = true) :
    ∃ s1 s2 : Snapshot,
      collectCycle st ch isGPU t1 = Except.ok (s1, st) ∧
      collectCycle st ch isGPU t2 = Except.ok (s2, st) ∧
      s1.cpu = s2.cpu ∧ s1.mem = s2.mem ∧ s1.devices = s2.devices ∧
      s1.processes = s2.processes ∧
      s1.timestamp = t1 ∧ s2.timestamp = t2 :=
  ⟨_, _, collectCycle_connected st ch isGPU t1 hconn,
    collectCycle_connected st ch isGPU t2 hconn,
    rfl, rfl, rfl, rfl, rfl, rfl⟩

/-- A fixed set of remote outputs used by the C6 witness. -/
def sampleChans : CycleChans :=
  { cpuChan := ["13.7\n", "CMD_FINISHED_0\n"]
    memChan := ["68719476736 34359738368\n", "CMD_FINISHED_0\n"]
    devChan := ["0, 1024, 8192, 50, 60, 120.5\n", "CMD_FINISHED_0\n"]
    procChan := ["123 root 10.5 1.0 python\n", "CMD_FINISHED_0\n"] }

/-- Witness for C6: two cycles over the same concrete remote outputs. -/
theorem collect_idempotent_witness :
    (SessState.mk true).connected = true ∧
    ∃ s1 s2 : Snapshot,
      collectCycle ⟨true⟩ sampleChans true 0 = Except.ok (s1, ⟨true⟩) ∧
      collectCycle ⟨true⟩ sampleChans true 1 = Except.ok (s2, ⟨true⟩) ∧
      s1.cpu = s2.cpu ∧ s1.mem = s2.mem ∧ s1.devices = s2.devices ∧
      s1.processes = s2.processes ∧
      s1.timestamp = 0 ∧ s2.timestamp = 1 :=
  ⟨rfl, collect_idempotent ⟨true⟩ sampleChans true 0 1 rfl⟩

/-- C7 counterexample: a host holding a good snapshot whose next poll
publishes a failure (`None`) has its store entry overwritten with
`None` — the displayed entry does not remain the last good snapshot. -/
theorem store_failing_poll_cex :
    storeLookup (applyEvents [("10.0.0.1", some sampleSnap)]
        [("10.0.0.1", none)]) "10.0.0.1" = some none ∧
    some (none : Option Snapshot) ≠ some (some sampleSnap) := by
  exact ⟨rfl, by simp⟩

/-- `find?` by host is unaffected by filtering out a different host. -/
theorem find_filter_other (l : Store) (h h2 : String) (hne : h2 ≠ h) :
    (l.filter (fun p => p.1 != h)).find? (fun p => p.1 == h2) =
      l.find? (fun p => p.1 == h2) := by
  induction l with
  | nil => rfl
  | cons a l ih =>
    by_cases hah : a.1 = h
    · have hh2 : (h == h2) = false := by
        simp only [beq_eq_false_iff_ne, ne_eq]
        exact fun hc => hne hc.symm
      simp [List.filter_cons, List.find?_cons, hah, hh2, ih]
    · by_cases hah2 : a.1 = h2
      · simp [List.filter_cons, List.find?_cons, hah, hah2, hne, ih]
      · simp [List.filter_cons, List.find?_cons, hah, hah2, hne, ih]

/-- C7 amended: each drained event overwrites the store's entry for its
host with the published value — a failing poll's `None` replaces the
last good snapshot (it does not persist) — while every other host's
entry is left unchanged; a later successful poll overwrites the entry
again by the same rule. -/
theorem store_overwrite_amended (store : Store) (h : String)
    (d : Option Snapshot) (h2 : String) (hne : h2 ≠ h) :
    storeLookup (applyEvent store (h, d)) h = some d ∧
    storeLookup (applyEvent store (h, d)) h2 = storeLookup store h2 := by
  constructor
  · simp [storeLookup, applyEvent, List.find?_cons]
  · have hd : (h == h2) = false := by
      simp only [beq_eq_false_iff_ne, ne_eq]
      exact fun hc => hne hc.symm
    simp only [storeLookup, applyEvent, List.find?_cons, hd,
      Bool.false_eq_true, if_false]
    rw [find_filter_other store h h2 hne]

/-- Witness for C7 amended: nulling one host leaves the other's good
snapshot in place and sets the failing host's entry to `None`. -/
theorem store_overwrite_amended_witness :
    storeLookup (applyEvent [("10.0.0.2", some sampleSnap)]
        ("10.0.0.1", none)) "10.0.0.1" = some none ∧
    storeLookup (applyEvent [("10.0.0.2", some sampleSnap)]
        ("10.0.0.1", none)) "10.0.0.2" =
      storeLookup [("10.0.0.2", some sampleSnap)] "10.0.0.2" :=
  store_overwrite_amended [("10.0.0.2", some sampleSnap)] "10.0.0.1"
    none "10.0.0.2" (by decide)

/-- The spec-side reading of "length of the longest host identifier":
the maximum of the name lengths (`0` for no hosts). -/
def specMaxLen (hosts : List String) : ℤ :=
  (hosts.map (fun h => (h.length : ℤ))).foldr max 0

/-- Folding `max` from a non-negative seed equals `max` of the seed
with the fold from `0`. -/
theorem foldl_max_nonneg (l : List ℤ) (a : ℤ) (ha : 0 ≤ a) :
    l.foldl max a = max a (l.foldr max 0) := by
  induction l generalizing a with
  | nil => simpa using (max_eq_left ha).symm
  | cons x xs ih =>
    simp only [List.foldl_cons, List.foldr_cons]
    rw [ih _ (le_max_of_le_left ha), max_assoc]

/-- C8: for every terminal width, nonempty host list and non-negative
margin, the layout computes the minimum column width as the length of
the longest host identifier plus the fixed padding 6, floored at the
baseline 60, and the column count as
`max 1 ((terminal_width - margin) / (min_col_width + margin))` with
floor division. -/
theorem layout_formula (hosts : List String) (maxX margin : ℤ)
    (hne : hosts ≠ []) (_hm : 0 ≤ margin) :
    ∃ trip, update_display_layout hosts maxX margin = some trip ∧
      trip.1 = max (specMaxLen hosts + 6) 60 ∧
      trip.2.1 = max 1 ((maxX - margin).fdiv
        (max (specMaxLen hosts + 6) 60 + margin)) := by
  match hosts, hne with
  | m :: ms, _ =>
    have hfold : ms.foldl (fun a h => max a (h.length : ℤ))
        ((m.length : ℤ)) = specMaxLen (m :: ms) := by
      have hmap : ms.foldl (fun a h => max a (h.length : ℤ))
          ((m.length : ℤ)) =
          (ms.map (fun h => (h.length : ℤ))).foldl max
            ((m.length : ℤ)) := by
        rw [List.foldl_map]
      rw [hmap, foldl_max_nonneg _ _ (Int.ofNat_nonneg m.length)]
      simp [specMaxLen]
    refine ⟨_, rfl, ?_, ?_⟩ <;> simp only [update_display_layout, hfold]

/-- Witness for C8: two hosts, a 130-column terminal, margin 2. -/
theorem layout_formula_witness :
    ∃ trip, update_display_layout ["10.0.0.1", "192.168.100.200"] 130 2 =
      some trip ∧
    trip.1 = max (specMaxLen ["10.0.0.1", "192.168.100.200"] + 6) 60 ∧
    trip.2.1 = max 1 (((130 : ℤ) - 2).fdiv
      (max (specMaxLen ["10.0.0.1", "192.168.100.200"] + 6) 60 + 2)) :=
  layout_formula ["10.0.0.1", "192.168.100.200"] 130 2 (by decide)
    (by decide)

/-- C9: every write issued through `safe_addstr` is clipped to the
terminal bounds: a target row or column outside the terminal (past the
bottom/right edge or negative) writes nothing, and an in-bounds target
writes the text truncated to the remaining width `max_x - x`; the
function is total (the `curses.error` of the raw `addstr` is always
swallowed), so no input raises. -/
theorem safe_addstr_clipped (maxY maxX y x : ℤ) (text : String) :
    ((y ≥ maxY ∨ x ≥ maxX ∨ y < 0 ∨ x < 0) →
      safe_addstr maxY maxX y x text = none)
    ∧ (y < maxY → x < maxX → 0 ≤ y → 0 ≤ x →
      safe_addstr maxY maxX y x text =
        some ⟨y, x, text.take (maxX - x).toNat⟩ ∧
      ((text.take (maxX - x).toNat).length : ℤ) ≤ maxX - x) := by
  constructor
  · intro hout
    rcases hout with hy | hx | hy0 | hx0
    · simp [safe_addstr, hy]
    · simp [safe_addstr, hx]
    · by_cases hy : y ≥ maxY
      · simp [safe_addstr, hy]
      · by_cases hx : x ≥ maxX
        · simp [safe_addstr, hx]
        · simp [safe_addstr, curses_addstr, hy, hx, hy0]
    · by_cases hy : y ≥ maxY
      · simp [safe_addstr, hy]
      · by_cases hx : x ≥ maxX
        · simp [safe_addstr, hx]
        · simp [safe_addstr, curses_addstr, hy, hx, hx0]
  · intro hy hx hy0 hx0
    constructor
    · unfold safe_addstr curses_addstr
      rw [if_neg (not_or.mpr ⟨not_le.mpr hy, not_le.mpr hx⟩),
        if_neg (by push_neg; exact ⟨hy0, hx0, hy, hx⟩)]
    · rw [String.take_eq]
      have h1 : (String.mk (text.data.take (maxX - x).toNat)).length ≤
          (maxX - x).toNat := by
        have hm : (String.mk (text.data.take (maxX - x).toNat)).length =
            (text.data.take (maxX - x).toNat).length := rfl
        rw [hm, List.length_take]
        exact Nat.min_le_left _ _
      calc ((String.mk (text.data.take (maxX - x).toNat)).length : ℤ)
          ≤ ((maxX - x).toNat : ℤ) := by exact_mod_cast h1
        _ = maxX - x := Int.toNat_of_nonneg (by omega)

/-- Witness for C9: an off-screen row writes nothing; an in-range write
near the right edge is truncated to the remaining ten columns. -/
theorem safe_addstr_clipped_witness :
    safe_addstr 24 80 30 0 "x" = none ∧
    safe_addstr 24 80 5 70 "hello world, long text" =
      some ⟨5, 70, ("hello world, long text".take ((80 - 70 : ℤ)).toNat)⟩ :=
  ⟨(safe_addstr_clipped 24 80 30 0 "x").1 (Or.inl (by decide)),
   ((safe_addstr_clipped 24 80 5 70 "hello world, long text").2
      (by decide) (by decide) (by decide) (by decide)).1⟩

/-- C10: during a display refresh, a host whose latest published event
carried no data (`None`) is skipped entirely by the drawing loop: no
writes are issued for it, the row/column cursor does not advance, it is
not counted among the drawn machines, and the iteration completes
without raising. -/
theorem display_skips_absent (maxY maxX colWidth margin cols
    numMachines : ℤ) (st : LoopSt) (host : String)
    (hcap : st.drawn < numMachines) :
    update_display_step maxY maxX colWidth margin cols numMachines st
      host none = Except.ok (StepRes.cont st []) := by
  simp [update_display_step, not_le.mpr hcap]

/-- Witness for C10: a mid-layout cursor state is returned untouched
for a `None` host. -/
theorem display_skips_absent_witness :
    update_display_step 24 200 60 2 3 4 ⟨5, 64, 2⟩ "10.0.0.1" none =
      Except.ok (StepRes.cont ⟨5, 64, 2⟩ []) :=
  display_skips_absent 24 200 60 2 3 4 ⟨5, 64, 2⟩ "10.0.0.1" (by decide)

end MachinesMonitor
